import Mathlib

/-!
Shallow embedding of `src/scraper.py` (floqer-scraper).

The program is a Playwright-driven pagination scraper:
* `get_page_number` — pure URL → page ordinal extraction (three regexes, default 1);
* `handle_dynamic_content_loading` — a `while True` expander loop (click "see more"
  buttons / scroll; stops when an iteration makes no progress);
* `scrape_with_playwright` — one browsing session: goto, then a `while True` loop
  (capture fresh URLs, sequence-anomaly check, resolve & click "next");
* `main` — the orchestrator: restarts sessions from returned resume URLs, bounded
  by `max_restarts = 30`, then prints a final report and saves captured pages.

The browser is a nondeterministic external environment; it is modelled by oracle
records (`ExpandIter`, `IterEnv`, `SessionEnv`) giving, per loop iteration, what the
page shows and which browser actions fail.  Loops are modelled with explicit fuel:
`none` means the loop is still running after `fuel` iterations.  Python exceptions
that escape a function are modelled explicitly (`Except`, `SessResult.raised`);
`scraped_data` (a Python dict) is an association list with dict-assignment
semantics, `visited_urls` (a Python set) a duplicate-free list.
-/

/-! ### PageSequenceTracker: `get_page_number` (src/scraper.py lines 7-26)

Python regex search is embedded as: try a matcher at every start position, left to
right (`re.search` leftmost-match semantics); `\d` is modelled as ASCII `0-9` and
`\d+` takes the maximal digit run (greedy; for these three patterns backtracking
into the digit run can never produce a match, so maximal-run is exact). -/

/-- Maximal leading run of ASCII digits of a character list, and the rest. -/
def takeDigits : List Char → List Char × List Char
  | [] => ([], [])
  | c :: cs =>
    if c.isDigit then
      let p := takeDigits cs
      (c :: p.1, p.2)
    else ([], c :: cs)

/-- Value of a digit string, as Python `int(...)` on a `\d+` capture. -/
def digitsToNat (ds : List Char) : Nat :=
  ds.foldl (fun a c => 10 * a + (c.toNat - 48)) 0

/-- Match a literal character list at the front; return the remainder on success. -/
def dropLit : List Char → List Char → Option (List Char)
  | [], s => some s
  | _ :: _, [] => none
  | p :: ps, c :: cs => if c = p then dropLit ps cs else none

/-- `re.search`: try the position matcher at each start position, leftmost first. -/
def searchPos (m : List Char → Option Nat) : List Char → Option Nat
  | [] => none
  | c :: cs =>
    match m (c :: cs) with
    | some n => some n
    | none => searchPos m cs

/-- After a literal key, require a nonempty digit run and return its value. -/
def matchKeyDigits (key : List Char) (s : List Char) : Option Nat :=
  match dropLit key s with
  | none => none
  | some r =>
    let p := takeDigits r
    if p.1 = [] then none else some (digitsToNat p.1)

/-- Pattern 1 at one position: `[?&](?:page|p)=(\d+)`.  The regex alternation
tries `page` before `p`; both branches then need `=` and at least one digit. -/
def matchP1At : List Char → Option Nat
  | [] => none
  | c :: rest =>
    if c = '?' ∨ c = '&' then
      match matchKeyDigits ('p' :: 'a' :: 'g' :: 'e' :: '=' :: []) rest with
      | some n => some n
      | none => matchKeyDigits ('p' :: '=' :: []) rest
    else none

/-- Pattern 2 at one position: `/page/(\d+)`. -/
def matchP2At (s : List Char) : Option Nat :=
  matchKeyDigits ('/' :: 'p' :: 'a' :: 'g' :: 'e' :: '/' :: []) s

/-- Pattern 3 at one position: `/(\d+)/?$` — a slash, digits, an optional slash,
then end of string. -/
def matchP3At : List Char → Option Nat
  | [] => none
  | c :: rest =>
    if c = '/' then
      let p := takeDigits rest
      if p.1 = [] then none
      else if p.2 = [] ∨ p.2 = ['/'] then some (digitsToNat p.1) else none
    else none

/-- `get_page_number(url)`: pattern 1, then pattern 2, then pattern 3, else `1`. -/
def get_page_number (url : String) : Nat :=
  match searchPos matchP1At url.data with
  | some n => n
  | none =>
    match searchPos matchP2At url.data with
    | some n => n
    | none =>
      match searchPos matchP3At url.data with
      | some n => n
      | none => 1

/-! ### DynamicContentExpander: `handle_dynamic_content_loading` (lines 28-88)

Per `while True` iteration the page environment determines, for each "see more"
selector, whether locating + `is_visible` + `click` + the post-click wait all
succeed (every per-selector exception is swallowed by `except Exception:
continue`), and the two `document.body.scrollHeight` measurements around the
scroll-to-bottom.  An iteration makes progress (`clicked_or_scrolled = True`)
iff some selector succeeds — strategy 1 stops at the first one — or the page
height grew; otherwise the loop breaks.  The Python loop has no iteration cap,
so it is modelled with explicit fuel: `none` = still looping after `fuel`
iterations. -/

/-- The `see_more_selectors` list (lines 32-49). -/
def see_more_selectors : List String :=
  ["[data-testid*=\"load-more\" i]", "[data-testid*=\"show-more\" i]",
   "[data-action*=\"load-more\" i]", "[data-action*=\"show-more\" i]",
   "button[aria-label*=\"load more\" i]", "a[aria-label*=\"load more\" i]",
   "button[aria-label*=\"show more\" i]", "a[aria-label*=\"show more\" i]",
   "button:has-text(\"Show More\")", "button:has-text(\"Load More\")",
   "button:has-text(\"See More\")", "button:has-text(\"View More\")",
   "a:has-text(\"Show More\")", "a:has-text(\"Load More\")",
   "a:has-text(\"See More\")", "a:has-text(\"View More\")",
   "[class*=\"load-more\" i]", "[class*=\"show-more\" i]",
   "[class*=\"see-more\" i]", "[class*=\"view-more\" i]",
   "[class*=\"loadmore\" i]", "[class*=\"showmore\" i]",
   "a.more-link", ".more-button"]

/-- What the page environment does during one expander iteration. -/
structure ExpandIter where
  /-- For a selector: the first match is visible, the click and the post-click
  wait succeed (any exception there is caught and the scan moves on). -/
  clickSuccess : String → Bool
  /-- `document.body.scrollHeight` before scrolling to the bottom. -/
  heightBefore : Nat
  /-- `document.body.scrollHeight` re-measured after the scroll and waits. -/
  heightAfter : Nat

/-- One iteration of the expander loop set `clicked_or_scrolled`: either
strategy 1 clicked a "see more" button (first succeeding selector in list
order) or strategy 2 observed `new_height > initial_height`. -/
def expandProgress (e : ExpandIter) : Bool :=
  (see_more_selectors.find? e.clickSuccess).isSome || decide (e.heightBefore < e.heightAfter)

/-- The `while True` loop of `handle_dynamic_content_loading`, iteration `i`
onwards, with fuel.  `some ()` = the loop hit `break`; `none` = still running
after `fuel` iterations. -/
def handle_dynamic_content_loading (env : Nat → ExpandIter) : Nat → Nat → Option Unit
  | 0, _ => none
  | fuel + 1, i =>
    if expandProgress (env i) then handle_dynamic_content_loading env fuel (i + 1)
    else some ()

/-! ### CrawlState: `visited_urls` (Python set) and `scraped_data` (Python dict) -/

/-- `visited_urls.add(u)`: duplicate-free list model of a Python set. -/
def addVisited (v : List String) (u : String) : List String :=
  if u ∈ v then v else v ++ [u]

/-- `d[k] = val` on a Python dict: overwrite if the key exists, else append. -/
def dictInsert (d : List (String × String)) (k val : String) : List (String × String) :=
  if d.any (fun p => p.1 = k) then d.map (fun p => if p.1 = k then (k, val) else p)
  else d ++ [(k, val)]

/-- `d.get(k)` on the dict model. -/
def dictLookup (d : List (String × String)) (k : String) : Option String :=
  (d.find? (fun p => p.1 = k)).map (fun p => p.2)

/-- The cross-session state threaded through sessions by `main`:
`master_visited_urls` and `master_scraped_data`. -/
structure CrawlState where
  visited : List String
  captured : List (String × String)
deriving DecidableEq, Repr

/-! ### SessionWorker: `scrape_with_playwright` (lines 90-182)

Oracle per loop iteration: the URL `page.url` reports, whether an exception
escapes `handle_dynamic_content_loading` (its `page.evaluate` / non-timeout
wait failures are NOT caught there, and line 124 sits outside any `try`),
whether `page.content()` raises (line 128, also outside any `try`), the blob
`page.content()` returns, which "next" selectors yield a visible and enabled
element, and whether the click + `wait_for_url` pair succeeds.  The `try` at
lines 140-179 covers only the next-button resolution, click and URL wait; an
exception there returns `last_successful_url`.  The loop has no `break`, so
the `return None` at line 182 is unreachable. -/

/-- The `next_button_selectors` list (lines 142-150). -/
def next_button_selectors : List String :=
  ["a[rel=\"next\"]", "button[rel=\"next\"]",
   "nav[aria-label*=\"pagination\" i] a:has-text(\"Next\")",
   "nav[aria-label*=\"pagination\" i] button:has-text(\"Next\")",
   "li.pagination-item--next a", ".pagination a:has-text(\"Next\")",
   ".pagination button:has-text(\"Next\")", "button:has-text(\"Next\")",
   "a[aria-label*=\"next\" i]", "button[aria-label*=\"next\" i]",
   "a[title*=\"next\" i]", "button[title*=\"next\" i]"]

/-- What the browser environment does during one session-loop iteration. -/
structure IterEnv where
  /-- `page.url` at the top of the iteration. -/
  currentUrl : String
  /-- An exception escapes `handle_dynamic_content_loading` (line 124). -/
  expandRaises : Bool
  /-- `page.content()` raises (line 128). -/
  contentRaises : Bool
  /-- The blob `page.content()` returns when it does not raise. -/
  content : String
  /-- For a "next" selector: its first match becomes visible within the 1s wait
  and `is_enabled()` returns true (per-selector exceptions are caught). -/
  selUsable : String → Bool
  /-- The `next_button.click` and the `wait_for_url` change both succeed. -/
  clickAndWaitOk : Bool

/-- Outcome of `page.goto(start_url, ...)` at line 109: success, a
`TimeoutError` (the only exception caught there), or any other exception. -/
inductive GotoRes where
  | ok
  | timeout
  | err
deriving DecidableEq, Repr

/-- Environment for one whole session. -/
structure SessionEnv where
  goto : GotoRes
  iter : Nat → IterEnv

/-- The session's loop-local variables: `previous_page_number`, `previous_url`,
`last_successful_url`, plus the shared `CrawlState`. -/
structure LoopVars where
  prevNum : Nat
  prevUrl : String
  lastGood : String
  st : CrawlState
deriving DecidableEq, Repr

/-- How a session ends: a `return resume, visited` (lines 138, 179 — and the
unreachable 113/182 shapes), or a Python exception propagating out of
`scrape_with_playwright` uncaught.  The shared set/dict mutations done so far
survive in either case. -/
inductive SessResult where
  | returned (resume : Option String) (st : CrawlState)
  | raised (st : CrawlState)
deriving DecidableEq, Repr

/-- The state a `SessResult` carries. -/
def SessResult.state : SessResult → CrawlState
  | .returned _ st => st
  | .raised st => st

/-- Lines 119-131: if `current_url` is already visited, skip capture entirely;
otherwise expand (may raise), read `page.content()` (may raise), write
`scraped_data[current_url]`, add to `visited_urls`, set `last_successful_url`.
`.error` = an exception escapes the session (no state mutation happened for
this URL, since both raise points precede the writes). -/
def captureStep (e : IterEnv) (v : LoopVars) : Except CrawlState LoopVars :=
  if e.currentUrl ∈ v.st.visited then .ok v
  else if e.expandRaises then .error v.st
  else if e.contentRaises then .error v.st
  else .ok { v with
    st := { visited := addVisited v.st.visited e.currentUrl,
            captured := dictInsert v.st.captured e.currentUrl e.content },
    lastGood := e.currentUrl }

/-- The session `while True` loop (lines 118-179), iteration `i` onwards.
`none` = still looping after `fuel` iterations. -/
def sessionLoop (env : Nat → IterEnv) : Nat → Nat → LoopVars → Option SessResult
  | 0, _, _ => none
  | fuel + 1, i, v =>
    let e := env i
    match captureStep e v with
    | .error st => some (.raised st)
    | .ok v' =>
      let curNum := get_page_number e.currentUrl
      if v.prevNum + 1 < curNum then
        some (.returned (some v.prevUrl) v'.st)
      else
        match next_button_selectors.find? e.selUsable with
        | none => some (.returned (some v'.lastGood) v'.st)
        | some _ =>
          if e.clickAndWaitOk then
            sessionLoop env fuel (i + 1)
              { v' with prevNum := curNum, prevUrl := e.currentUrl }
          else some (.returned (some v'.lastGood) v'.st)

/-- `scrape_with_playwright(start_url, existing_visited_urls, scraped_data)`.
On a `goto` `TimeoutError` it returns `(start_url, visited)` (line 113); any
other `goto` exception propagates.  Otherwise `previous_page_number`,
`previous_url` and `last_successful_url` are initialised from `start_url` and
the loop runs. -/
def scrape_with_playwright (env : SessionEnv) (start_url : String) (st : CrawlState)
    (fuel : Nat) : Option SessResult :=
  match env.goto with
  | .timeout => some (.returned (some start_url) st)
  | .err => some (.raised st)
  | .ok =>
    sessionLoop env.iter fuel 0
      { prevNum := get_page_number start_url, prevUrl := start_url,
        lastGood := start_url, st := st }

/-! ### Orchestrator: `main` (lines 184-225)

`main` is parametric in what each `scrape_with_playwright` call returns: it
only consumes the returned `(next_url, state)` pair.  The loop condition is
`next_url_to_scrape is not None and restart_count < max_restarts`, and
`restart_count` increments after every session; it equals the number of
sessions launched. -/

/-- `max_restarts = 30` (line 203). -/
def max_restarts : Nat := 30

/-- The `main` while loop.  `sess i u st` is what the `(i+1)`-th launched
session returns given resume URL `u` and shared state `st`.  Arguments:
remaining budget `max_restarts - restart_count`, sessions launched so far,
`next_url_to_scrape`, state.  Result: (sessions launched, final
`next_url_to_scrape`, final state). -/
def orchLoop (sess : Nat → String → CrawlState → Option String × CrawlState) :
    Nat → Nat → Option String → CrawlState → Nat × Option String × CrawlState
  | 0, idx, nxt, st => (idx, nxt, st)
  | r + 1, idx, nxt, st =>
    match nxt with
    | none => (idx, none, st)
    | some u =>
      let p := sess idx u st
      orchLoop sess r (idx + 1) p.1 p.2

/-- The orchestration part of `main`: start from the entered URL with empty
state and `restart_count = 0`. -/
def runCrawl (sess : Nat → String → CrawlState → Option String × CrawlState)
    (startUrl : String) : Nat × Option String × CrawlState :=
  orchLoop sess max_restarts 0 (some startUrl) { visited := [], captured := [] }

/-! ### CLI completion surface: the tail of `main` (lines 221-241)

After the loop, `main` prints a finished banner, a limit notice when
`restart_count >= max_restarts`, the line `Total unique URLs visited: <n>`,
and then (when `master_scraped_data` is nonempty) a saving header plus one
`Saved`/`FAILED to save` line per captured entry in dict order.  The prints
are modelled as structured output events; the observation language also has a
`sortedUrlList` event so that "prints the sorted list of visited URLs" is
expressible.  File-write success is an oracle on the target path.  Python's
`\w` in the sanitising regex is modelled over ASCII (alphanumeric or `_`). -/

/-- One line the completion section of `main` prints. -/
inductive OutputEvent where
  | finishedBanner
  | stoppedAtLimit (k : Nat)
  | totalCount (n : Nat)
  | sortedUrlList (urls : List String)
  | savingHeader (n : Nat) (dir : String)
  | savedFile (path : String)
  | failedSave (path : String)
deriving DecidableEq, Repr

/-- Does an event list the visited URLs? -/
def isUrlListEvent : OutputEvent → Bool
  | .sortedUrlList _ => true
  | _ => false

/-- A character the filename sanitiser keeps: `[\w\-_\. ]` (ASCII `\w`). -/
def keepsFilenameChar (c : Char) : Bool :=
  c.isAlphanum || c = '_' || c = '-' || c = '.' || c = ' '

/-- `re.sub(r'[^\w\-_\. ]', '_', url)` (line 234). -/
def sanitized_name (url : String) : String :=
  ⟨url.data.map (fun c => if keepsFilenameChar c then c else '_')⟩

/-- `os.path.join("scraped_pages", f"{sanitized_name}.html")` (line 235). -/
def savePath (url : String) : String :=
  "scraped_pages/" ++ sanitized_name url ++ ".html"

/-- The output events of `main`'s completion section (lines 221-241), given the
final `restart_count`, the final state and a per-path write-success oracle. -/
def finalReport (restart_count : Nat) (visited : List String)
    (captured : List (String × String)) (writeOk : String → Bool) : List OutputEvent :=
  [.finishedBanner]
    ++ (if max_restarts ≤ restart_count then [.stoppedAtLimit max_restarts] else [])
    ++ [.totalCount visited.length]
    ++ (if captured = [] then []
        else .savingHeader captured.length "scraped_pages" ::
          captured.map (fun p =>
            if writeOk (savePath p.1) then .savedFile (savePath p.1)
            else .failedSave (savePath p.1)))

/-! ### Theorems -/

/-- C4: `get_page_number` applies the query-parameter, `/page/<n>`, and
trailing-number strategies in that order, returning the first match, with
default 1: the spec's four examples hold, and on URLs where two strategies
disagree the earlier strategy wins. -/
theorem C4_ordinal_extraction :
    get_page_number "https://site.test/list?page=5" = 5
    ∧ get_page_number "https://site.test/page/3/" = 3
    ∧ get_page_number "https://site.test/category/7" = 7
    ∧ get_page_number "https://site.test/category/" = 1
    ∧ get_page_number "https://site.test/page/9/?page=5" = 5
    ∧ get_page_number "https://site.test/page/3/7" = 3 :=
  ⟨by decide, by decide, by decide, by decide, by decide, by decide⟩

/-- If every session returns a present resume URL, the orchestrator loop runs
its whole remaining budget, launching one session per unit of budget. -/
theorem orchLoop_launches_all
    (sess : Nat → String → CrawlState → Option String × CrawlState)
    (h : ∀ i u st, (sess i u st).1.isSome = true) :
    ∀ (r idx : Nat) (u : String) (st : CrawlState),
      (orchLoop sess r idx (some u) st).1 = idx + r := by
  intro r
  induction r with
  | zero => intro idx u st; rfl
  | succ r ih =>
    intro idx u st
    have hs := h idx u st
    rcases hp : (sess idx u st).1 with _ | u'
    · rw [hp] at hs; simp at hs
    · simp only [orchLoop, hp]
      rw [ih (idx + 1) u' (sess idx u st).2]
      omega

/-- C3: with `max_restarts = 30`, if every launched session returns a present
(non-`None`) resume URL, `main` launches exactly 30 sessions and then stops —
the loop guard `restart_count < max_restarts` fails, so no 31st session is
attempted, and the accumulated state is whatever those 30 sessions left. -/
theorem C3_restart_bound
    (sess : Nat → String → CrawlState → Option String × CrawlState)
    (h : ∀ i u st, (sess i u st).1.isSome = true) (startUrl : String) :
    (runCrawl sess startUrl).1 = max_restarts :=
  orchLoop_launches_all sess h max_restarts 0 startUrl { visited := [], captured := [] }

/-- C3 witness: sessions that always resume from their own start URL drive the
orchestrator through exactly 30 launches. -/
theorem C3_restart_bound_witness :
    (runCrawl (fun _ u st => (some u, st)) "https://site.test/1").1 = max_restarts :=
  C3_restart_bound (fun _ u st => (some u, st)) (fun _ _ _ => rfl) "https://site.test/1"

/-- An adversarial page: no "see more" click ever succeeds, and the height
grows on every single scroll. -/
def advExpandEnv : Nat → ExpandIter := fun i =>
  { clickSuccess := fun _ => false, heightBefore := i, heightAfter := i + 1 }

/-- Against `advExpandEnv` every expander iteration makes progress. -/
theorem advExpandEnv_progress (i : Nat) : expandProgress (advExpandEnv i) = true := by
  simp [expandProgress, advExpandEnv, List.find?_eq_none]

/-- Against `advExpandEnv` the expander loop never breaks, whatever the fuel. -/
theorem expand_adversarial_runs_forever :
    ∀ (fuel i : Nat), handle_dynamic_content_loading advExpandEnv fuel i = none := by
  intro fuel
  induction fuel with
  | zero => intro i; rfl
  | succ fuel ih =>
    intro i
    simp only [handle_dynamic_content_loading, advExpandEnv_progress, if_true]
    exact ih (i + 1)

/-- C8 counterexample: the expander has no iteration cap, and against the
concrete adversarial page `advExpandEnv` (height grows on every scroll) it
never terminates — no amount of fuel makes the `while True` loop break, so
termination is NOT guaranteed on every page environment. -/
theorem C8_counterexample :
    ¬ ∃ fuel : Nat, (handle_dynamic_content_loading advExpandEnv fuel 0).isSome = true := by
  rintro ⟨fuel, h⟩
  rw [expand_adversarial_runs_forever fuel 0] at h
  simp at h

/-- If iteration `i + k` makes no progress, the loop started at `i` breaks
within `k + 1` iterations. -/
theorem expand_stops_within (env : Nat → ExpandIter) :
    ∀ (k i : Nat), expandProgress (env (i + k)) = false →
      (handle_dynamic_content_loading env (k + 1) i).isSome = true := by
  intro k
  induction k with
  | zero =>
    intro i h
    simp only [handle_dynamic_content_loading]
    rw [Nat.add_zero] at h
    rw [h]
    rfl
  | succ k ih =>
    intro i h
    simp only [handle_dynamic_content_loading]
    rcases hp : expandProgress (env i) with _ | _
    · rw [if_neg (by simp [hp])]; rfl
    · rw [if_pos (by simp [hp])]
      exact ih (i + 1) (by rw [show i + 1 + k = i + (k + 1) by omega]; exact h)

/-- If the loop breaks, some iteration made no progress. -/
theorem expand_stops_only_at_fixpoint (env : Nat → ExpandIter) :
    ∀ (fuel i : Nat), (handle_dynamic_content_loading env fuel i).isSome = true →
      ∃ k, expandProgress (env k) = false := by
  intro fuel
  induction fuel with
  | zero => intro i h; simp [handle_dynamic_content_loading] at h
  | succ fuel ih =>
    intro i h
    simp only [handle_dynamic_content_loading] at h
    rcases hp : expandProgress (env i) with _ | _
    · exact ⟨i, hp⟩
    · rw [hp, if_pos rfl] at h
      exact ih (i + 1) h

/-- C8 amended: the expander loop stops exactly at a fixed point — it breaks
iff some iteration neither clicks a visible load-more affordance nor observes
the height grow; as soon as iteration `k` makes no progress it terminates
within `k + 1` iterations.  The code imposes no iteration cap, so this fixed
point is the only way it ever stops. -/
theorem C8_expander_fixpoint_termination :
    (∀ (env : Nat → ExpandIter) (k : Nat), expandProgress (env k) = false →
        (handle_dynamic_content_loading env (k + 1) 0).isSome = true)
    ∧ (∀ (env : Nat → ExpandIter) (fuel : Nat),
        (handle_dynamic_content_loading env fuel 0).isSome = true →
        ∃ k, expandProgress (env k) = false) :=
  ⟨fun env k h => expand_stops_within env k 0 (by rw [Nat.zero_add]; exact h),
   fun env fuel h => expand_stops_only_at_fixpoint env fuel 0 h⟩

/-- A quiet page: no click succeeds and the height never changes. -/
def quietExpandEnv : Nat → ExpandIter := fun _ =>
  { clickSuccess := fun _ => false, heightBefore := 7, heightAfter := 7 }

/-- C8 witness: on a page with no load-more affordance and stable height the
expander terminates in its first iteration. -/
theorem C8_expander_fixpoint_termination_witness :
    (handle_dynamic_content_loading quietExpandEnv 1 0).isSome = true :=
  C8_expander_fixpoint_termination.1 quietExpandEnv 0 (by decide)


/-- `u` is a member after `visited_urls.add(u)`. -/
theorem mem_addVisited_self (v : List String) (u : String) : u ∈ addVisited v u := by
  unfold addVisited
  split
  · assumption
  · exact List.mem_append_right _ (List.mem_singleton.mpr rfl)

/-- `visited_urls.add` keeps every existing member. -/
theorem subset_addVisited (v : List String) (u : String) : v ⊆ addVisited v u := by
  unfold addVisited
  split
  · exact fun _ h => h
  · exact fun _ h => List.mem_append_left _ h

/-- In the overwrite branch of a dict assignment, the first entry with the
assigned key becomes the assigned pair. -/
theorem find?_map_overwrite (k val : String) :
    ∀ d : List (String × String), d.any (fun p => p.1 = k) = true →
      (d.map (fun p => if p.1 = k then (k, val) else p)).find? (fun p => p.1 = k)
        = some (k, val) := by
  intro d
  induction d with
  | nil => intro h; simp at h
  | cons p ps ih =>
    intro h
    by_cases hp : p.1 = k
    · rw [List.map_cons, if_pos hp, List.find?_cons_of_pos _ (by simp)]
    · rw [List.map_cons, if_neg hp, List.find?_cons_of_neg _ (by simp [hp])]
      exact ih (by simpa [hp] using h)

/-- A dict assignment's overwrite branch leaves lookups of other keys alone. -/
theorem find?_map_other (k val u : String) (hu : u ≠ k) :
    ∀ d : List (String × String),
      (d.map (fun p => if p.1 = k then (k, val) else p)).find? (fun p => p.1 = u)
        = d.find? (fun p => p.1 = u) := by
  intro d
  induction d with
  | nil => rfl
  | cons p ps ih =>
    by_cases hp : p.1 = k
    · rw [List.map_cons, if_pos hp, List.find?_cons_of_neg _ (by simp [Ne.symm hu]),
        List.find?_cons_of_neg _ (by simp [hp, Ne.symm hu])]
      exact ih
    · by_cases hpu : p.1 = u
      · rw [List.map_cons, if_neg hp, List.find?_cons_of_pos _ (by simp [hpu]),
          List.find?_cons_of_pos _ (by simp [hpu])]
      · rw [List.map_cons, if_neg hp, List.find?_cons_of_neg _ (by simp [hpu]),
          List.find?_cons_of_neg _ (by simp [hpu])]
        exact ih

/-- Looking up the just-assigned key of a dict returns the assigned value. -/
theorem dictLookup_insert_self (d : List (String × String)) (k val : String) :
    dictLookup (dictInsert d k val) k = some val := by
  unfold dictInsert dictLookup
  split
  · next hany => rw [find?_map_overwrite k val d hany]; rfl
  · next hany =>
    have hnone : d.find? (fun p => (p.1 = k : Bool)) = none :=
      List.find?_eq_none.mpr fun x hx hpx =>
        hany (List.any_eq_true.mpr ⟨x, hx, hpx⟩)
    rw [List.find?_append, hnone, Option.none_or, List.find?_cons_of_pos _ (by simp)]
    rfl

/-- A dict assignment never changes the lookup of any other key. -/
theorem dictLookup_insert_other (d : List (String × String)) (k val u : String)
    (hu : u ≠ k) : dictLookup (dictInsert d k val) u = dictLookup d u := by
  unfold dictInsert dictLookup
  split
  · rw [find?_map_other k val u hu d]
  · rw [List.find?_append, show [(k, val)].find? (fun p => (p.1 = u : Bool)) = none by
      simp [List.find?_cons_of_neg, Ne.symm hu]]
    rw [Option.or_none]

/-- An already-visited URL makes the capture phase a no-op (lines 120-121):
no expansion, no `page.content()`, no writes. -/
theorem captureStep_skips_visited (e : IterEnv) (v : LoopVars)
    (h : e.currentUrl ∈ v.st.visited) : captureStep e v = .ok v := by
  simp [captureStep, h]

/-- On a fresh URL a successful capture phase produces exactly the update of
lines 124-131: content recorded, URL added to `visited`,
`last_successful_url` moved. -/
theorem captureStep_fresh_shape (e : IterEnv) (v v' : LoopVars)
    (h : e.currentUrl ∉ v.st.visited) (hok : captureStep e v = .ok v') :
    v' = { v with
      st := { visited := addVisited v.st.visited e.currentUrl,
              captured := dictInsert v.st.captured e.currentUrl e.content },
      lastGood := e.currentUrl } := by
  cases heb : e.expandRaises <;> cases hcb : e.contentRaises <;>
    simp [captureStep, h, heb, hcb] at hok
  exact hok.symm

/-- When the capture phase lets an exception escape, the shared state is
whatever it already was: both raise points precede every write. -/
theorem captureStep_error_state (e : IterEnv) (v : LoopVars) (st : CrawlState)
    (h : captureStep e v = .error st) : st = v.st := by
  by_cases hv : e.currentUrl ∈ v.st.visited
  · simp [captureStep, hv] at h
  · cases heb : e.expandRaises <;> cases hcb : e.contentRaises <;>
      simp [captureStep, hv, heb, hcb] at h <;> exact h.symm

/-- The capture phase only ever adds to `visited`. -/
theorem captureStep_visited_mono (e : IterEnv) (v v' : LoopVars)
    (hok : captureStep e v = .ok v') : v.st.visited ⊆ v'.st.visited := by
  by_cases h : e.currentUrl ∈ v.st.visited
  · rw [captureStep_skips_visited e v h] at hok
    cases hok
    exact fun _ hw => hw
  · rw [captureStep_fresh_shape e v v' h hok]
    exact subset_addVisited _ _


/-- The capture phase never touches the `captured` entry of a URL that is
already in `visited`. -/
theorem captureStep_preserves_entry (e : IterEnv) (v v' : LoopVars)
    (hok : captureStep e v = .ok v') (u : String) (hu : u ∈ v.st.visited) :
    dictLookup v'.st.captured u = dictLookup v.st.captured u := by
  by_cases h : e.currentUrl ∈ v.st.visited
  · rw [captureStep_skips_visited e v h] at hok
    cases hok
    rfl
  · rw [captureStep_fresh_shape e v v' h hok]
    exact dictLookup_insert_other _ _ _ _ (fun he => h (he ▸ hu))

/-- On a fresh URL a successful capture phase records the page content under
that URL and marks it visited, in the same step. -/
theorem captureStep_fresh_writes (e : IterEnv) (v v' : LoopVars)
    (h : e.currentUrl ∉ v.st.visited) (hok : captureStep e v = .ok v') :
    dictLookup v'.st.captured e.currentUrl = some e.content
    ∧ e.currentUrl ∈ v'.st.visited := by
  rw [captureStep_fresh_shape e v v' h hok]
  exact ⟨dictLookup_insert_self _ _ _, mem_addVisited_self _ _⟩

/-- Does a session run end in the `return None` shape (listing complete)? -/
def isReturnedNone : Option SessResult → Bool
  | some (.returned none _) => true
  | _ => false

/-- Did the session recover, i.e. end through one of its `return` statements
rather than by letting an exception propagate? -/
def isRecovered : Option SessResult → Bool
  | some (.returned _ _) => true
  | _ => false

/-- If the capture phase raises, the session loop lets the exception
propagate, carrying the state as already mutated (lines 124/128 are outside
every `try`). -/
theorem sessionLoop_capture_raised (env : Nat → IterEnv) (fuel i : Nat)
    (v : LoopVars) (st : CrawlState) (hcap : captureStep (env i) v = .error st) :
    sessionLoop env (fuel + 1) i v = some (.raised st) := by
  simp only [sessionLoop, hcap]

/-- Lines 133-138: a detected page skip returns `previous_url` — the URL of
the iteration before the jump — together with the state as mutated so far. -/
theorem sessionLoop_anomaly (env : Nat → IterEnv) (fuel i : Nat) (v v' : LoopVars)
    (hcap : captureStep (env i) v = .ok v')
    (hjump : v.prevNum + 1 < get_page_number (env i).currentUrl) :
    sessionLoop env (fuel + 1) i v = some (.returned (some v.prevUrl) v'.st) := by
  simp only [sessionLoop, hcap]
  rw [if_pos hjump]

/-- Lines 151-164 + 174-179: when no "next" selector yields a visible and
enabled element, the raised exception is caught and the session returns
`last_successful_url`. -/
theorem sessionLoop_selector_exhausted (env : Nat → IterEnv) (fuel i : Nat)
    (v v' : LoopVars) (hcap : captureStep (env i) v = .ok v')
    (hnoj : ¬ v.prevNum + 1 < get_page_number (env i).currentUrl)
    (hsel : next_button_selectors.find? (env i).selUsable = none) :
    sessionLoop env (fuel + 1) i v = some (.returned (some v'.lastGood) v'.st) := by
  simp only [sessionLoop, hcap]
  rw [if_neg hnoj, hsel]

/-- Lines 166-179: a failing click or URL-change wait is caught and the
session returns `last_successful_url`. -/
theorem sessionLoop_click_failed (env : Nat → IterEnv) (fuel i : Nat)
    (v v' : LoopVars) (s : String) (hcap : captureStep (env i) v = .ok v')
    (hnoj : ¬ v.prevNum + 1 < get_page_number (env i).currentUrl)
    (hsel : next_button_selectors.find? (env i).selUsable = some s)
    (hclick : (env i).clickAndWaitOk = false) :
    sessionLoop env (fuel + 1) i v = some (.returned (some v'.lastGood) v'.st) := by
  simp only [sessionLoop, hcap]
  rw [if_neg hnoj, hsel, hclick]
  rfl

/-- The session `while True` loop has no `break`: no run of it ever produces
the `return None` (completion) shape — the `return None, visited_urls` at
line 182 is unreachable. -/
theorem sessionLoop_never_completes (env : Nat → IterEnv) :
    ∀ (fuel i : Nat) (v : LoopVars),
      isReturnedNone (sessionLoop env fuel i v) = false := by
  intro fuel
  induction fuel with
  | zero => intro i v; rfl
  | succ fuel ih =>
    intro i v
    simp only [sessionLoop]
    split
    · rfl
    · split
      · rfl
      · split
        · rfl
        · split
          · exact ih (i + 1) _
          · rfl

/-- Across any session-loop run, `visited` only grows. -/
theorem sessionLoop_visited_mono (env : Nat → IterEnv) :
    ∀ (fuel i : Nat) (v : LoopVars) (res : SessResult),
      sessionLoop env fuel i v = some res → v.st.visited ⊆ res.state.visited := by
  intro fuel
  induction fuel with
  | zero => intro i v res h; cases h
  | succ fuel ih =>
    intro i v res h
    simp only [sessionLoop] at h
    split at h
    · next st hcap =>
      cases h
      rw [captureStep_error_state _ _ _ hcap]
      exact fun _ hw => hw
    · next v' hcap =>
      split at h
      · cases h
        exact captureStep_visited_mono _ _ _ hcap
      · split at h
        · cases h
          exact captureStep_visited_mono _ _ _ hcap
        · split at h
          · refine List.Subset.trans (captureStep_visited_mono _ _ _ hcap) ?_
            exact ih (i + 1)
              { v' with prevNum := get_page_number (env i).currentUrl,
                        prevUrl := (env i).currentUrl }
              res h
          · cases h
            exact captureStep_visited_mono _ _ _ hcap

/-- Across any session-loop run, the `captured` entry of a URL that is
already visited is never touched. -/
theorem sessionLoop_preserves_entry (env : Nat → IterEnv) :
    ∀ (fuel i : Nat) (v : LoopVars) (res : SessResult) (u : String),
      sessionLoop env fuel i v = some res → u ∈ v.st.visited →
      dictLookup res.state.captured u = dictLookup v.st.captured u := by
  intro fuel
  induction fuel with
  | zero => intro i v res u h; cases h
  | succ fuel ih =>
    intro i v res u h hu
    simp only [sessionLoop] at h
    split at h
    · next st hcap =>
      cases h
      rw [captureStep_error_state _ _ _ hcap]
      rfl
    · next v' hcap =>
      split at h
      · cases h
        exact captureStep_preserves_entry _ _ _ hcap u hu
      · split at h
        · cases h
          exact captureStep_preserves_entry _ _ _ hcap u hu
        · split at h
          · rw [ih (i + 1)
              { v' with prevNum := get_page_number (env i).currentUrl,
                        prevUrl := (env i).currentUrl }
              res u h (captureStep_visited_mono _ _ _ hcap hu)]
            exact captureStep_preserves_entry _ _ _ hcap u hu
          · cases h
            exact captureStep_preserves_entry _ _ _ hcap u hu

/-- Across any whole-session run — every exit path included — `visited` only
grows. -/
theorem scrape_visited_mono (env : SessionEnv) (u : String) (st : CrawlState)
    (fuel : Nat) (res : SessResult)
    (h : scrape_with_playwright env u st fuel = some res) :
    st.visited ⊆ res.state.visited := by
  unfold scrape_with_playwright at h
  split at h
  · cases h; exact fun _ hw => hw
  · cases h; exact fun _ hw => hw
  · exact sessionLoop_visited_mono env.iter fuel 0 _ res h

/-- Across any whole-session run, the `captured` entry of an
already-visited URL survives unchanged. -/
theorem scrape_preserves_entry (env : SessionEnv) (u : String) (st : CrawlState)
    (fuel : Nat) (res : SessResult) (w : String)
    (h : scrape_with_playwright env u st fuel = some res) (hw : w ∈ st.visited) :
    dictLookup res.state.captured w = dictLookup st.captured w := by
  unfold scrape_with_playwright at h
  split at h
  · cases h; rfl
  · cases h; rfl
  · exact sessionLoop_preserves_entry env.iter fuel 0 _ res w h hw

/-- No whole-session run produces the completion shape `return None`. -/
theorem scrape_never_completes (env : SessionEnv) (u : String) (st : CrawlState)
    (fuel : Nat) :
    isReturnedNone (scrape_with_playwright env u st fuel) = false := by
  unfold scrape_with_playwright
  split
  · rfl
  · rfl
  · exact sessionLoop_never_completes env.iter fuel 0 _

/-! ### Concrete environments used by counterexamples and witnesses -/

/-- A page stuck at one URL: capture works, no "next" selector ever matches. -/
def iterStuck : Nat → IterEnv := fun _ =>
  { currentUrl := "https://site.test/1", expandRaises := false,
    contentRaises := false, content := "<html>",
    selUsable := fun _ => false, clickAndWaitOk := true }

/-- Session environment around `iterStuck` with a successful `goto`. -/
def envStuck : SessionEnv := { goto := .ok, iter := iterStuck }

/-- Loop variables at the start of a session on `https://site.test/1`. -/
def vStuck : LoopVars :=
  { prevNum := 1, prevUrl := "https://site.test/1",
    lastGood := "https://site.test/1", st := { visited := [], captured := [] } }

/-- `vStuck` after capturing `https://site.test/1`. -/
def vStuck' : LoopVars :=
  { prevNum := 1, prevUrl := "https://site.test/1",
    lastGood := "https://site.test/1",
    st := { visited := ["https://site.test/1"],
            captured := [("https://site.test/1", "<html>")] } }

/-- A page where `handle_dynamic_content_loading` raises on the first fresh
URL (e.g. a `page.evaluate` failure, outside every `try`). -/
def iterExpandBoom : Nat → IterEnv := fun _ =>
  { currentUrl := "https://site.test/1", expandRaises := true,
    contentRaises := false, content := "",
    selUsable := fun _ => true, clickAndWaitOk := true }

/-- Session environment around `iterExpandBoom`. -/
def envExpandBoom : SessionEnv := { goto := .ok, iter := iterExpandBoom }

/-- A page where a "next" button is found but the click / URL wait fails. -/
def iterClickFail : Nat → IterEnv := fun _ =>
  { currentUrl := "https://site.test/1", expandRaises := false,
    contentRaises := false, content := "<html>",
    selUsable := fun _ => true, clickAndWaitOk := false }

/-- A session whose initial `page.goto` hits a `TimeoutError`. -/
def envGotoTimeout : SessionEnv := { goto := .timeout, iter := iterStuck }

/-- URL at ordinal 3 of a listing. -/
def urlA : String := "https://site.test/page/3/"

/-- URL at ordinal 6 of the same listing — a page skip from `urlA`. -/
def urlB : String := "https://site.test/page/6/"

/-- A session iteration observing the jumped-to `urlB`. -/
def iterJump : Nat → IterEnv := fun _ =>
  { currentUrl := urlB, expandRaises := false, contentRaises := false,
    content := "<section6>", selUsable := fun _ => false, clickAndWaitOk := true }

/-- Loop variables after a normal visit of `urlA` (ordinal 3). -/
def vJump : LoopVars :=
  { prevNum := 3, prevUrl := urlA, lastGood := urlA,
    st := { visited := [urlA], captured := [(urlA, "<section3>")] } }

/-- `vJump` after the capture phase of the jumped-to `urlB`. -/
def vJump' : LoopVars :=
  { prevNum := 3, prevUrl := urlA, lastGood := urlB,
    st := { visited := [urlA, urlB],
            captured := [(urlA, "<section3>"), (urlB, "<section6>")] } }

/-! ### Claim theorems -/

/-- C1 counterexample: a concrete session in which every "next" selector is
exhausted (none is visible and enabled) does NOT end with `resumeUrl = None`:
it returns `last_successful_url`, so the orchestrator restarts instead of
stopping. -/
theorem C1_counterexample :
    scrape_with_playwright envStuck "https://site.test/1"
        { visited := [], captured := [] } 5
      = some (.returned (some "https://site.test/1") vStuck'.st)
    ∧ isReturnedNone (scrape_with_playwright envStuck "https://site.test/1"
        { visited := [], captured := [] } 5) = false :=
  ⟨by decide, by decide⟩

/-- C1 (amended): when the next-affordance search exhausts all selector
patterns the raised "Could not find a valid 'Next' button" exception is caught
by the generic handler and the session returns `resumeUrl =
last_successful_url`; no session run ever produces `resumeUrl = None` (line
182 is unreachable), so the orchestrator restarts rather than stopping. -/
theorem C1_selector_exhausted_is_failure :
    (∀ (env : Nat → IterEnv) (fuel i : Nat) (v v' : LoopVars),
        captureStep (env i) v = .ok v' →
        ¬ v.prevNum + 1 < get_page_number (env i).currentUrl →
        (∀ s ∈ next_button_selectors, (env i).selUsable s = false) →
        sessionLoop env (fuel + 1) i v = some (.returned (some v'.lastGood) v'.st))
    ∧ (∀ (env : SessionEnv) (u : String) (st : CrawlState) (fuel : Nat),
        isReturnedNone (scrape_with_playwright env u st fuel) = false) := by
  constructor
  · intro env fuel i v v' hcap hnoj hall
    exact sessionLoop_selector_exhausted env fuel i v v' hcap hnoj
      (List.find?_eq_none.mpr fun s hs => by simp [hall s hs])
  · exact scrape_never_completes

/-- C1 amended witness: the stuck page returns its own URL as resume point,
and its whole-session run is not the completion shape. -/
theorem C1_selector_exhausted_is_failure_witness :
    sessionLoop iterStuck 1 0 vStuck
      = some (.returned (some "https://site.test/1") vStuck'.st)
    ∧ isReturnedNone (scrape_with_playwright envStuck "https://site.test/1"
        { visited := [], captured := [] } 2) = false :=
  ⟨C1_selector_exhausted_is_failure.1 iterStuck 0 0 vStuck vStuck' rfl
      (by decide) (fun _ _ => rfl),
   C1_selector_exhausted_is_failure.2 envStuck "https://site.test/1"
      { visited := [], captured := [] } 2⟩

/-- C2: in any session iteration whose current ordinal exceeds the previous
ordinal plus one, the session ends returning `previous_url` — the URL observed
before the jump — as the resume point. -/
theorem C2_anomaly_resumes_previous_url (env : Nat → IterEnv) (fuel i : Nat)
    (v v' : LoopVars) (hcap : captureStep (env i) v = .ok v')
    (hjump : v.prevNum + 1 < get_page_number (env i).currentUrl) :
    sessionLoop env (fuel + 1) i v = some (.returned (some v.prevUrl) v'.st) :=
  sessionLoop_anomaly env fuel i v v' hcap hjump

/-- C2 witness: previous ordinal 3, current ordinal 6 — the session returns
the URL observed at ordinal 3, not the jumped-to URL. -/
theorem C2_anomaly_resumes_previous_url_witness :
    sessionLoop iterJump 1 0 vJump = some (.returned (some urlA) vJump'.st) :=
  C2_anomaly_resumes_previous_url iterJump 0 0 vJump vJump' rfl (by decide)

/-- C5 counterexample: an exception escaping the dynamic-content expansion of
a fresh URL (a capture-phase step) is NOT recovered at the session boundary —
the concrete run propagates it as a fatal `raised` outcome instead of
returning `resumeUrl = lastGoodUrl`. -/
theorem C5_counterexample :
    scrape_with_playwright envExpandBoom "https://site.test/1"
        { visited := [], captured := [] } 3
      = some (.raised { visited := [], captured := [] })
    ∧ isRecovered (scrape_with_playwright envExpandBoom "https://site.test/1"
        { visited := [], captured := [] } 3) = false :=
  ⟨by decide, by decide⟩

/-- C5 (amended): the recovery boundary covers only the navigation steps — an
initial-`goto` `TimeoutError` returns the start URL, and any failure of the
next-button click / URL-change wait returns `last_successful_url`; but an
exception escaping the expansion or `page.content()` capture steps propagates
out of the session uncaught. -/
theorem C5_recovery_boundaries :
    (∀ (env : SessionEnv) (u : String) (st : CrawlState) (fuel : Nat),
        env.goto = .timeout →
        scrape_with_playwright env u st fuel = some (.returned (some u) st))
    ∧ (∀ (env : Nat → IterEnv) (fuel i : Nat) (v v' : LoopVars) (s : String),
        captureStep (env i) v = .ok v' →
        ¬ v.prevNum + 1 < get_page_number (env i).currentUrl →
        next_button_selectors.find? (env i).selUsable = some s →
        (env i).clickAndWaitOk = false →
        sessionLoop env (fuel + 1) i v = some (.returned (some v'.lastGood) v'.st))
    ∧ (∀ (env : Nat → IterEnv) (fuel i : Nat) (v : LoopVars) (st : CrawlState),
        captureStep (env i) v = .error st →
        sessionLoop env (fuel + 1) i v = some (.raised st)) := by
  refine ⟨?_, sessionLoop_click_failed, sessionLoop_capture_raised⟩
  intro env u st fuel hg
  unfold scrape_with_playwright
  rw [hg]

/-- C5 amended witness: a goto timeout resumes from the start URL; a failed
click resumes from `last_successful_url`; an expansion exception propagates. -/
theorem C5_recovery_boundaries_witness :
    scrape_with_playwright envGotoTimeout "https://site.test/1" vJump.st 2
      = some (.returned (some "https://site.test/1") vJump.st)
    ∧ sessionLoop iterClickFail 1 0 vStuck
        = some (.returned (some "https://site.test/1") vStuck'.st)
    ∧ sessionLoop iterExpandBoom 1 0 vStuck
        = some (.raised { visited := [], captured := [] }) :=
  ⟨C5_recovery_boundaries.1 envGotoTimeout "https://site.test/1" vJump.st 2 rfl,
   C5_recovery_boundaries.2.1 iterClickFail 0 0 vStuck vStuck' "a[rel=\"next\"]"
     rfl (by decide) (by decide) rfl,
   C5_recovery_boundaries.2.2 iterExpandBoom 0 0 vStuck
     { visited := [], captured := [] } rfl⟩

/-- C6: the captured map is written at most once per URL — (1) an iteration
whose URL is already visited changes nothing at all; (2) the single write to
`captured[u]` happens in the same step that first puts `u` into `visited`;
(3) across any whole-session run an existing entry of a visited URL survives
unchanged. -/
theorem C6_captured_write_once :
    (∀ (e : IterEnv) (v : LoopVars), e.currentUrl ∈ v.st.visited →
        captureStep e v = .ok v)
    ∧ (∀ (e : IterEnv) (v v' : LoopVars), e.currentUrl ∉ v.st.visited →
        captureStep e v = .ok v' →
        dictLookup v'.st.captured e.currentUrl = some e.content
        ∧ e.currentUrl ∈ v'.st.visited)
    ∧ (∀ (env : SessionEnv) (u : String) (st : CrawlState) (fuel : Nat)
        (res : SessResult) (w cont : String),
        scrape_with_playwright env u st fuel = some res →
        w ∈ st.visited → dictLookup st.captured w = some cont →
        dictLookup res.state.captured w = some cont) := by
  refine ⟨captureStep_skips_visited, captureStep_fresh_writes, ?_⟩
  intro env u st fuel res w cont h hw hl
  rw [scrape_preserves_entry env u st fuel res w h hw, hl]

/-- C6 witness: re-visiting `urlB` is a no-op; the first visit of
`https://site.test/1` writes its content and marks it visited; `urlA`'s
existing entry survives a session run. -/
theorem C6_captured_write_once_witness :
    captureStep (iterJump 0) vJump' = .ok vJump'
    ∧ (dictLookup vStuck'.st.captured "https://site.test/1" = some "<html>"
        ∧ "https://site.test/1" ∈ vStuck'.st.visited)
    ∧ dictLookup (SessResult.returned (some "x") vJump.st).state.captured urlA
        = some "<section3>" :=
  ⟨C6_captured_write_once.1 (iterJump 0) vJump' (by decide),
   C6_captured_write_once.2.1 (iterStuck 0) vStuck vStuck' (by decide) rfl,
   C6_captured_write_once.2.2 envGotoTimeout "x" vJump.st 0
     (SessResult.returned (some "x") vJump.st) urlA "<section3>" rfl
     (by decide) rfl⟩

/-- C7: `visited` is monotonically non-decreasing — (1) any whole-session run,
every exit path included, only adds URLs to `visited`; (2) along any chain of
states linked by session runs, each state's `visited` contains the previous
one's. -/
theorem C7_visited_monotone :
    (∀ (env : SessionEnv) (u : String) (st : CrawlState) (fuel : Nat)
        (res : SessResult),
        scrape_with_playwright env u st fuel = some res →
        st.visited ⊆ res.state.visited)
    ∧ (∀ (sts : Nat → CrawlState),
        (∀ n, ∃ env u fuel res,
            scrape_with_playwright env u (sts n) fuel = some res
            ∧ res.state = sts (n + 1)) →
        ∀ n, (sts n).visited ⊆ (sts (n + 1)).visited) := by
  refine ⟨scrape_visited_mono, ?_⟩
  intro sts h n
  obtain ⟨env, u, fuel, res, hrun, hst⟩ := h n
  rw [← hst]
  exact scrape_visited_mono env u (sts n) fuel res hrun

/-- C7 witness: a concrete session run and a concrete constant session chain
both keep `visited` non-decreasing. -/
theorem C7_visited_monotone_witness :
    vJump.st.visited ⊆ (SessResult.returned (some "x") vJump.st).state.visited
    ∧ ((fun _ : Nat => vJump.st) 0).visited ⊆ ((fun _ : Nat => vJump.st) 1).visited :=
  ⟨C7_visited_monotone.1 envGotoTimeout "x" vJump.st 0
     (SessResult.returned (some "x") vJump.st) rfl,
   C7_visited_monotone.2 (fun _ => vJump.st)
     (fun _ => ⟨envGotoTimeout, "x", 0, SessResult.returned (some "x") vJump.st,
       rfl, rfl⟩) 0⟩

/-- C10: when a sequence anomaly fires on a URL that was not previously
visited, the jumped-to page has already been captured and added to `visited`
by the time the session returns the pre-jump resume point — the anomaly exit
rolls nothing back, so a resumed session will treat that page as visited. -/
theorem C10_anomalous_page_capture_persists (env : Nat → IterEnv) (fuel i : Nat)
    (v v' : LoopVars)
    (hfresh : (env i).currentUrl ∉ v.st.visited)
    (hcap : captureStep (env i) v = .ok v')
    (hjump : v.prevNum + 1 < get_page_number (env i).currentUrl) :
    sessionLoop env (fuel + 1) i v = some (.returned (some v.prevUrl) v'.st)
    ∧ dictLookup v'.st.captured (env i).currentUrl = some (env i).content
    ∧ (env i).currentUrl ∈ v'.st.visited :=
  ⟨sessionLoop_anomaly env fuel i v v' hcap hjump,
   (captureStep_fresh_writes _ _ _ hfresh hcap).1,
   (captureStep_fresh_writes _ _ _ hfresh hcap).2⟩

/-- C10 witness: the jump from ordinal 3 to 6 returns `urlA` as resume point
while `urlB`'s content is already recorded and `urlB` is already visited. -/
theorem C10_anomalous_page_capture_persists_witness :
    sessionLoop iterJump 2 0 vJump = some (.returned (some urlA) vJump'.st)
    ∧ dictLookup vJump'.st.captured urlB = some "<section6>"
    ∧ urlB ∈ vJump'.st.visited :=
  C10_anomalous_page_capture_persists iterJump 1 0 vJump vJump' (by decide) rfl
    (by decide)

/-- A concrete final crawl state with two visited URLs, one captured page. -/
def visitedC9 : List String := ["https://site.test/2", "https://site.test/1"]

/-- The captured entries that go with `visitedC9`. -/
def capturedC9 : List (String × String) := [("https://site.test/2", "<x>")]

/-- C9 counterexample: at a concrete completed crawl the CLI output contains
the total-unique-count line but NO event listing the visited URLs — the
sorted URL list is never printed. -/
theorem C9_counterexample :
    OutputEvent.totalCount 2 ∈ finalReport 30 visitedC9 capturedC9 (fun _ => true)
    ∧ (finalReport 30 visitedC9 capturedC9 (fun _ => true)).all
        (fun e => !(isUrlListEvent e)) = true :=
  ⟨by decide, by decide⟩

/-- C9 (amended): on completion the CLI prints the total count of unique
visited URLs (plus the banner, the optional limit notice and per-file save
lines), but never an event listing the visited URLs themselves. -/
theorem C9_prints_count_but_no_url_list (restart_count : Nat)
    (visited : List String) (captured : List (String × String))
    (writeOk : String → Bool) :
    OutputEvent.totalCount visited.length
        ∈ finalReport restart_count visited captured writeOk
    ∧ (finalReport restart_count visited captured writeOk).all
        (fun e => !(isUrlListEvent e)) = true := by
  constructor
  · simp [finalReport]
  · apply List.all_eq_true.mpr
    intro e he
    unfold finalReport at he
    rcases List.mem_append.mp he with he | he
    · rcases List.mem_append.mp he with he | he
      · rcases List.mem_append.mp he with he | he
        · rw [List.mem_singleton] at he; subst he; rfl
        · split at he
          · rw [List.mem_singleton] at he; subst he; rfl
          · cases he
      · rw [List.mem_singleton] at he; subst he; rfl
    split at he
    · cases he
    · rcases List.mem_cons.mp he with he | he
      · subst he; rfl
      · obtain ⟨p, hp, hpe⟩ := List.mem_map.mp he
        subst hpe
        by_cases hw : writeOk (savePath p.1) = true
        · simp [hw, isUrlListEvent]
        · simp [hw, isUrlListEvent]
